import Mathlib

/-!
# Native editor provider and native editor reducer

A shallow embedding of

* `packages/editor/src/components/provider/index.native.js`
  (class `NativeEditorProvider` and the dispatch wrappers of its `withDispatch`), and
* `packages/editor/src/store/reducer.native.js`
  (the `postTitle` reducer and the default export).

The component is embedded as state passing over a `World`: the fields of the
component instance, the values its props select from the store, the live
subscriptions on the host channel, and the ordered trace of every call the
component makes on a collaborator (bridge, store dispatchers, title input).
The collaborators themselves (`serialize`, `parse`, the store's reaction to a
dispatched action) are not part of these two files; they are parameters,
collected in `Env`.
-/

namespace Gutenberg

/-! ## Data model -/

/-- Attributes of a block; the provider reads only `originalName`
(`none` stands for a missing attribute). -/
structure Attributes where
  originalName : Option String
deriving DecidableEq, Repr

/-- Block of the editor: its type name and its attributes. -/
structure Block where
  name : String
  attributes : Attributes
deriving DecidableEq, Repr

/-- Post object. `ref` stands for the identity of the JavaScript object
(`!==` on posts compares identities); `titleRaw` and `contentRaw` are
`title.raw` and `content.raw`. -/
structure Post where
  ref : Nat
  type : String
  titleRaw : String
  contentRaw : String
deriving DecidableEq, Repr

/-- Values that `withSelect` maps to props: `mode`, `isReady`, `blocks`, `title`,
and the value `getEditedPostContent()` returns. -/
structure Store where
  mode : String
  isReady : Bool
  blocks : List Block
  title : String
  editedPostContent : String
deriving DecidableEq, Repr

/-- One element of `postTypeEntities`. -/
structure Entity where
  kind : String
  name : String
  baseURL : String
  transientEditsBlocks : Bool
  mergedEditsMeta : Bool
deriving DecidableEq, Repr

/-- The five events of the host channel the provider subscribes to. -/
inductive HostEvent where
  | parentGetHtml
  | parentToggleHTMLMode
  | setTitle
  | updateHtml
  | setFocusOnTitle
deriving DecidableEq, Repr

/-- Calls the component makes on its collaborators, as recorded in the trace. -/
inductive Effect where
  | provideToNative_Html (html : String) (title : String) (hasChanges : Bool)
  | editorDidMount (unsupportedBlockNames : List (Option String))
  | addEntities (entities : List Entity)
  | receiveEntityRecords (kind : String) (name : String) (post : Post)
  | editPost (title : String)
  | resetEditorBlocks (blocks : List Block) (unstableShouldCreateUndoLevel : Bool)
  | clearSelectedBlock
  | switchEditorMode (mode : String)
  | subscribe (event : HostEvent) (handle : Nat)
  | remove (handle : Nat)
  | focus (titleRef : Nat)
deriving DecidableEq, Repr

/-- Collaborators of the component that live outside the two embedded files:
the serialization library and, for each store dispatcher, what the dispatched
action does to the values the props select. -/
structure Env where
  serialize : List Block → String
  parse : String → List Block
  getUnregisteredTypeHandlerName : Option String
  onAddEntities : List Entity → Store → Store
  onReceiveEntityRecords : String → String → Post → Store → Store
  onEditPost : String → Store → Store
  onResetEditorBlocks : List Block → Bool → Store → Store
  onClearSelectedBlock : Store → Store
  onSwitchEditorMode : String → Store → Store

/-- Component instance together with its surroundings.

* `store`: the selected props, re-read at every `this.props.x`;
* `propsPost`: `this.props.post`; `post`: `this.post`;
* `postTitleRef`: `this.postTitleRef`;
* the five `subscription...` fields of the instance (`none` is `undefined`);
* `nextHandle`, `active`: the host channel (next fresh handle, live subscriptions);
* `trace`: calls made so far, oldest first. -/
structure World where
  store : Store
  propsPost : Post
  post : Post
  postTitleRef : Option Nat
  subscriptionParentGetHtml : Option Nat
  subscriptionParentToggleHTMLMode : Option Nat
  subscriptionParentSetTitle : Option Nat
  subscriptionParentUpdateHtml : Option Nat
  subscriptionParentSetFocusOnTitle : Option Nat
  nextHandle : Nat
  active : List (Nat × HostEvent)
  trace : List Effect
deriving DecidableEq, Repr

/-- The constant `postTypeEntities` (lines 20-34). -/
def postTypeEntities : List Entity :=
  [ ("post", "/wp/v2/posts"),
    ("page", "/wp/v2/pages"),
    ("attachment", "/wp/v2/media"),
    ("wp_block", "/wp/v2/blocks") ].map
    fun postTypeEntity =>
      { kind := "postType"
        name := postTypeEntity.1
        baseURL := postTypeEntity.2
        transientEditsBlocks := true
        mergedEditsMeta := true }

/-! ## Host channel -/

/-- Modelled from the spec: `subscribe...` of the host channel
(package react-native-gutenberg-bridge, imported). A subscription returns a
fresh handle and is live on the channel until released. -/
def subscribe (event : HostEvent) (w : World) : Nat × World :=
  (w.nextHandle,
   { w with
     nextHandle := w.nextHandle + 1
     active := w.active ++ [(w.nextHandle, event)]
     trace := w.trace ++ [Effect.subscribe event w.nextHandle] })

/-- Modelled from the spec: `handle.remove()` of the host channel; the
subscription with that handle is no longer live. -/
def remove (handle : Nat) (w : World) : World :=
  { w with
    active := w.active.filter (fun s => s.1 != handle)
    trace := w.trace ++ [Effect.remove handle] }

/-- Method call `x.remove()` on the value of a subscription field: a
`TypeError` when the field is `undefined`. -/
def callRemove (subscription : Option Nat) (w : World) : Except String World :=
  match subscription with
  | none => Except.error "TypeError: cannot read property remove of undefined"
  | some handle => Except.ok (remove handle w)

/-! ## Dispatch wrappers (`withDispatch`, lines 187-217) -/

/-- Dispatcher `addEntities` of core/editor. -/
def addEntities (env : Env) (entities : List Entity) (w : World) : World :=
  { w with
    store := env.onAddEntities entities w.store
    trace := w.trace ++ [Effect.addEntities entities] }

/-- Dispatcher `receiveEntityRecords` of core/editor. -/
def receiveEntityRecords (env : Env) (kind name : String) (post : Post) (w : World) : World :=
  { w with
    store := env.onReceiveEntityRecords kind name post w.store
    trace := w.trace ++ [Effect.receiveEntityRecords kind name post] }

/-- Dispatcher `editPost` of core/editor, called with an object holding the title. -/
def editPost (env : Env) (title : String) (w : World) : World :=
  { w with
    store := env.onEditPost title w.store
    trace := w.trace ++ [Effect.editPost title] }

/-- Prop `editTitle` (lines 204-206). -/
def editTitle (env : Env) (title : String) (w : World) : World :=
  editPost env title w

/-- Dispatcher `resetEditorBlocks` of core/editor; the second argument is the
option `__unstableShouldCreateUndoLevel`. -/
def resetEditorBlocks (env : Env) (blocks : List Block) (unstableShouldCreateUndoLevel : Bool)
    (w : World) : World :=
  { w with
    store := env.onResetEditorBlocks blocks unstableShouldCreateUndoLevel w.store
    trace := w.trace ++ [Effect.resetEditorBlocks blocks unstableShouldCreateUndoLevel] }

/-- Prop `resetEditorBlocksWithoutUndoLevel` (lines 208-212). -/
def resetEditorBlocksWithoutUndoLevel (env : Env) (blocks : List Block) (w : World) : World :=
  resetEditorBlocks env blocks false w

/-- Dispatcher `clearSelectedBlock` of core/block-editor. -/
def clearSelectedBlock (env : Env) (w : World) : World :=
  { w with
    store := env.onClearSelectedBlock w.store
    trace := w.trace ++ [Effect.clearSelectedBlock] }

/-- Dispatcher `switchEditorMode` of core/edit-post. -/
def switchEditorMode (env : Env) (mode : String) (w : World) : World :=
  { w with
    store := env.onSwitchEditorMode mode w.store
    trace := w.trace ++ [Effect.switchEditorMode mode] }

/-- Prop `switchMode` (lines 213-215). -/
def switchMode (env : Env) (mode : String) (w : World) : World :=
  switchEditorMode env mode w

/-! ## Bridge calls -/

/-- Outbound call `RNReactNativeGutenbergBridge.provideToNative_Html`. -/
def provideToNative_Html (html title : String) (hasChanges : Bool) (w : World) : World :=
  { w with trace := w.trace ++ [Effect.provideToNative_Html html title hasChanges] }

/-- Outbound call `RNReactNativeGutenbergBridge.editorDidMount`. -/
def editorDidMount (unsupportedBlockNames : List (Option String)) (w : World) : World :=
  { w with trace := w.trace ++ [Effect.editorDidMount unsupportedBlockNames] }

/-- Call `this.postTitleRef.focus()` on a registered title input. -/
def focus (titleRef : Nat) (w : World) : World :=
  { w with trace := w.trace ++ [Effect.focus titleRef] }

/-! ## `NativeEditorProvider` -/

/-- Method `refreshPost` (lines 110-114). -/
def refreshPost (env : Env) (w : World) : World :=
  let w := { w with post := w.propsPost }
  let w := addEntities env postTypeEntities w
  receiveEntityRecords env "postType" w.post.type w.post w

/-- Method `setTitleRef` (lines 116-118). -/
def setTitleRef (titleRef : Option Nat) (w : World) : World :=
  { w with postTitleRef := titleRef }

/-- Method `updateHtmlAction` (lines 138-141). -/
def updateHtmlAction (env : Env) (html : String) (w : World) : World :=
  let parsed := env.parse html
  resetEditorBlocksWithoutUndoLevel env parsed w

/-- Assignments `this.post.title.raw = title; this.post.content.raw = html`
(lines 133-134). The write goes to the object `this.post`; `this.props.post`
sees it when it is the same object. -/
def writePostSnapshot (title html : String) (w : World) : World :=
  let post := { w.post with titleRaw := title, contentRaw := html }
  { w with
    post := post
    propsPost := if w.propsPost.ref = w.post.ref then post else w.propsPost }

/-- Method `serializeToNativeAction` (lines 120-136). -/
def serializeToNativeAction (env : Env) (w : World) : World :=
  let w := if w.store.mode = "text" then updateHtmlAction env w.store.editedPostContent w else w
  let html := env.serialize w.store.blocks
  let title := w.store.title
  let hasChanges := title != w.post.titleRaw || html != w.post.contentRaw
  let w := provideToNative_Html html title hasChanges w
  if hasChanges then writePostSnapshot title html w else w

/-- Method `toggleMode` (lines 143-150). -/
def toggleMode (env : Env) (w : World) : World :=
  let mode := w.store.mode
  let w := serializeToNativeAction env w
  let w := clearSelectedBlock env w
  switchMode env (if mode = "visual" then "text" else "visual") w

/-- Method `componentDidMount` (lines 51-73): the five subscriptions, in source order. -/
def componentDidMount (w : World) : World :=
  let r := subscribe HostEvent.parentGetHtml w
  let w := { r.2 with subscriptionParentGetHtml := some r.1 }
  let r := subscribe HostEvent.parentToggleHTMLMode w
  let w := { r.2 with subscriptionParentToggleHTMLMode := some r.1 }
  let r := subscribe HostEvent.setTitle w
  let w := { r.2 with subscriptionParentSetTitle := some r.1 }
  let r := subscribe HostEvent.updateHtml w
  let w := { r.2 with subscriptionParentUpdateHtml := some r.1 }
  let r := subscribe HostEvent.setFocusOnTitle w
  { r.2 with subscriptionParentSetFocusOnTitle := some r.1 }

/-- Method `componentWillUnmount` (lines 75-95). -/
def componentWillUnmount (w : World) : Except String World := do
  let w ← if w.subscriptionParentGetHtml.isSome
    then callRemove w.subscriptionParentGetHtml w else pure w
  let w ← if w.subscriptionParentToggleHTMLMode.isSome
    then callRemove w.subscriptionParentToggleHTMLMode w else pure w
  let w ← if w.subscriptionParentSetTitle.isSome
    then callRemove w.subscriptionParentSetTitle w else pure w
  let w ← if w.subscriptionParentUpdateHtml.isSome
    then callRemove w.subscriptionParentUpdateHtml w else pure w
  if w.subscriptionParentSetFocusOnTitle.isSome
    then callRemove w.subscriptionParentSetFocusOnTitle w else pure w

/-- Method `componentDidUpdate` (lines 97-108); `prevIsReady` and `prevPost`
are `prevProps.isReady` and `prevProps.post`. -/
def componentDidUpdate (env : Env) (prevIsReady : Bool) (prevPost : Post) (w : World) : World :=
  let w :=
    if !prevIsReady && w.store.isReady then
      let blocks := w.store.blocks
      let isUnsupportedBlock := fun (b : Block) =>
        decide (some b.name = env.getUnregisteredTypeHandlerName)
      let unsupportedBlockNames :=
        (blocks.filter isUnsupportedBlock).map (fun block => block.attributes.originalName)
      editorDidMount unsupportedBlockNames w
    else w
  if prevPost.ref != w.propsPost.ref then refreshPost env w else w

/-- Payload-carrying firing of one of the five subscribed host events. -/
inductive Firing where
  | parentGetHtml
  | parentToggleHTMLMode
  | setTitle (title : String)
  | updateHtml (html : String)
  | setFocusOnTitle
deriving DecidableEq, Repr

/-- The five callbacks registered in `componentDidMount` (lines 52-72). -/
def fire (env : Env) (f : Firing) (w : World) : World :=
  match f with
  | Firing.parentGetHtml => serializeToNativeAction env w
  | Firing.parentToggleHTMLMode => toggleMode env w
  | Firing.setTitle title => editTitle env title w
  | Firing.updateHtml html => updateHtmlAction env html w
  | Firing.setFocusOnTitle =>
    match w.postTitleRef with
    | some titleRef => focus titleRef w
    | none => w

/-- Any finite sequence of handler firings, in order. -/
def fireAll (env : Env) (fs : List Firing) (w : World) : World :=
  fs.foldl (fun acc f => fire env f acc) w

/-! ## Reading the trace -/

/-- Calls of `provideToNative_Html` in a trace, in order. -/
def pushes (t : List Effect) : List Effect :=
  t.filter fun e =>
    match e with
    | Effect.provideToNative_Html _ _ _ => true
    | _ => false

/-- Handles on which `remove()` was called in a trace, in order. -/
def removed (t : List Effect) : List Nat :=
  t.filterMap fun e =>
    match e with
    | Effect.remove handle => some handle
    | _ => none

/-- Arguments of the calls of `editorDidMount` in a trace, in order. -/
def editorDidMountCalls (t : List Effect) : List (List (Option String)) :=
  t.filterMap fun e =>
    match e with
    | Effect.editorDidMount names => some names
    | _ => none

/-- Store values that lines 125-126 of `serializeToNativeAction` read when the
handler is entered on store `s`: in text mode the props as they are after the
reset dispatched at line 122, otherwise `s` itself. -/
def storeAtSerialize (env : Env) (s : Store) : Store :=
  if s.mode = "text" then env.onResetEditorBlocks (env.parse s.editedPostContent) false s else s

/-! ## `reducer.native.js` -/

/-- Transaction types of the optimistic decorator. -/
inductive OptimistType where
  | BEGIN
  | COMMIT
  | REVERT
deriving DecidableEq, Repr

/-- Field `optimist` of an action: transaction type and correlation id. -/
structure OptimistMeta where
  type : OptimistType
  id : Nat
deriving DecidableEq, Repr

/-- Dispatched action: its `type`, the payload field `isSelected` (read only for
`TOGGLE_POST_TITLE_SELECTION`), and the optional field `optimist`. -/
structure Action where
  type : String
  isSelected : Bool
  optimist : Option OptimistMeta
deriving DecidableEq, Repr

/-- State of the `postTitle` reducer. -/
structure PostTitleState where
  isSelected : Bool
deriving DecidableEq, Repr

/-- Slice reducer `isSelected` (lines 38-45); `none` is an `undefined` previous
state, replaced by the default `false`. -/
def isSelected (state : Option Bool) (action : Action) : Bool :=
  let state := state.getD false
  if action.type = "TOGGLE_POST_TITLE_SELECTION" then action.isSelected else state

/-- Modelled from the spec: `combineReducers` of the package @wordpress/data
(imported, not under src/), for an object with the single key `isSelected`.
Following section 4.2, the slice's next value depends only on its own previous
value and the action; an `undefined` state hands `undefined` to the slice. -/
def combineReducersPostTitle (isSelected : Option Bool → Action → Bool)
    (state : Option PostTitleState) (action : Action) : PostTitleState :=
  { isSelected := isSelected (state.map fun s => s.isSelected) action }

/-- Reducer `postTitle` (lines 37-46): `combineReducers` over the single slice
`isSelected`. -/
def postTitle (state : Option PostTitleState) (action : Action) : PostTitleState :=
  combineReducersPostTitle isSelected state action

/-- State tree of the combined reducer (lines 48-60): the slice `postTitle` and
the ten slices imported from `reducer.js`, kept together as `imported`. -/
structure EditorState (ρ : Type) where
  postTitle : PostTitleState
  imported : ρ
deriving DecidableEq, Repr

/-- Modelled from the spec: `combineReducers` of the package @wordpress/data
(imported, not under src/) over the eleven slices of lines 48-60, the argument
of `optimist` in the default export. Following section 4.2, each slice's next
value depends only on its own previous value and the action; `imported` is the
reducer of the ten slices that come from `reducer.js`. -/
def combinedReducer {ρ : Type} (imported : Option ρ → Action → ρ)
    (state : Option (EditorState ρ)) (action : Action) : EditorState ρ :=
  { postTitle := postTitle (state.map fun s => s.postTitle) action
    imported := imported (state.map fun s => s.imported) action }

/-- Pending transaction of the optimistic layer: correlation id and action. -/
structure Transaction where
  id : Nat
  action : Action
deriving DecidableEq, Repr

/-- State of a reducer wrapped by the optimistic decorator: the base state and
the ordered stack of pending transactions, oldest first. -/
structure OptimistState (σ : Type) where
  base : σ
  pending : List Transaction
deriving DecidableEq, Repr

/-- Modelled from the spec: the state tree seen through the optimistic layer,
the base with the pending transactions applied in submission order. The
decorator `optimist` is imported from the package redux-optimist. -/
def OptimistState.current {σ : Type} (fn : Option σ → Action → σ) (st : OptimistState σ) : σ :=
  st.pending.foldl (fun s t => fn (some s) t.action) st.base

/-- Modelled from the spec: the decorator `optimist` of the package
redux-optimist, imported by `reducer.native.js` and absent from the sources.
Following section 4.2: an action without a transaction passes through to the
slices and leaves the transaction stack alone; `begin` pushes a tentative
transaction without discarding the base; `commit` folds the transaction into
the base; `revert` removes that transaction and the state is recomputed from
the base and the remaining pending transactions in their order. -/
def optimist {σ : Type} (fn : Option σ → Action → σ) (st : OptimistState σ) (action : Action) :
    OptimistState σ :=
  match action.optimist with
  | none => { st with base := fn (some st.base) action }
  | some m =>
    match m.type with
    | OptimistType.BEGIN => { st with pending := st.pending ++ [{ id := m.id, action := action }] }
    | OptimistType.COMMIT =>
      { base := (st.pending.filter fun t => t.id == m.id).foldl
          (fun s t => fn (some s) t.action) st.base
        pending := st.pending.filter fun t => t.id != m.id }
    | OptimistType.REVERT => { st with pending := st.pending.filter fun t => t.id != m.id }

/-- Default export of `reducer.native.js` (lines 48-60). -/
def reducer {ρ : Type} (imported : Option ρ → Action → ρ) :
    OptimistState (EditorState ρ) → Action → OptimistState (EditorState ρ) :=
  optimist (combinedReducer imported)

/-! ## Concrete collaborators and states for evaluation -/

/-- Serializer used in the examples: the block names, concatenated. -/
def demoSerialize (blocks : List Block) : String :=
  blocks.foldr (fun b acc => b.name ++ acc) ""

/-- Parser used in the examples: the empty string has no block, any other
string is one block of that name. -/
def demoParse (html : String) : List Block :=
  if html = "" then [] else [{ name := html, attributes := { originalName := none } }]

/-- Collaborators used in the examples: a store that records the dispatched
title, blocks and mode. -/
def demoEnv : Env :=
  { serialize := demoSerialize
    parse := demoParse
    getUnregisteredTypeHandlerName := some "core/missing"
    onAddEntities := fun _ s => s
    onReceiveEntityRecords := fun _ _ _ s => s
    onEditPost := fun title s => { s with title := title }
    onResetEditorBlocks := fun blocks _ s => { s with blocks := blocks }
    onClearSelectedBlock := fun s => s
    onSwitchEditorMode := fun mode s => { s with mode := mode } }

/-- Example post whose snapshot is title T and empty content. -/
def demoPost : Post :=
  { ref := 0, type := "post", titleRaw := "T", contentRaw := "" }

/-- Example world: visual mode, title T, no blocks, snapshot equal to both,
nothing subscribed, empty trace. -/
def demoWorld : World :=
  { store := { mode := "visual", isReady := false, blocks := [], title := "T",
               editedPostContent := "" }
    propsPost := demoPost
    post := demoPost
    postTitleRef := none
    subscriptionParentGetHtml := none
    subscriptionParentToggleHTMLMode := none
    subscriptionParentSetTitle := none
    subscriptionParentUpdateHtml := none
    subscriptionParentSetFocusOnTitle := none
    nextHandle := 0
    active := []
    trace := [] }

/-- Example world in text mode whose edited content is the string p. -/
def demoTextWorld : World :=
  { demoWorld with
    store := { mode := "text", isReady := true, blocks := [], title := "T",
               editedPostContent := "p" } }

/-- Example world that became ready with one unsupported block, the example of
section 8 of the specification. -/
def demoReadyWorld : World :=
  { demoWorld with
    store := { mode := "visual", isReady := true,
               blocks := [{ name := "core/missing",
                            attributes := { originalName := some "core/unknown" } }],
               title := "T", editedPostContent := "" } }

/-- Example action that selects the post title. -/
def demoToggleAction : Action :=
  { type := "TOGGLE_POST_TITLE_SELECTION", isSelected := true, optimist := none }

/-- Example action of a type no slice of `postTitle` responds to. -/
def demoOtherAction : Action :=
  { type := "EDIT_POST", isSelected := true, optimist := none }

/-- Example state of the default reducer with no imported slice content and no
pending transaction. -/
def demoReducerState : OptimistState (EditorState Unit) :=
  { base := { postTitle := { isSelected := false }, imported := () }, pending := [] }


/-! ## Lemmas on `serializeToNativeAction` -/

/-- The flag `hasChanges` computed at line 128 for a world entered with store
values `s` read at lines 125-126. -/
theorem hasChanges_eq_true_iff (env : Env) (s : Store) (post : Post) :
    (s.title != post.titleRaw || env.serialize s.blocks != post.contentRaw) = true ↔
      (s.title ≠ post.titleRaw ∨ env.serialize s.blocks ≠ post.contentRaw) := by
  simp

/-- The handler leaves the store as lines 125-126 read it. -/
theorem serializeToNativeAction_store (env : Env) (w : World) :
    (serializeToNativeAction env w).store = storeAtSerialize env w.store := by
  unfold serializeToNativeAction storeAtSerialize updateHtmlAction
    resetEditorBlocksWithoutUndoLevel resetEditorBlocks provideToNative_Html writePostSnapshot
  by_cases hm : w.store.mode = "text" <;> simp only [hm, if_true, if_false] <;>
    split <;> rfl

/-- The handler does not touch the snapshot before it pushes. -/
theorem serializeToNativeAction_trace (env : Env) (w : World) :
    (serializeToNativeAction env w).trace =
      w.trace ++
        (if w.store.mode = "text"
          then [Effect.resetEditorBlocks (env.parse w.store.editedPostContent) false] else []) ++
        [Effect.provideToNative_Html
          (env.serialize (storeAtSerialize env w.store).blocks)
          (storeAtSerialize env w.store).title
          ((storeAtSerialize env w.store).title != w.post.titleRaw ||
            env.serialize (storeAtSerialize env w.store).blocks != w.post.contentRaw)] := by
  unfold serializeToNativeAction storeAtSerialize updateHtmlAction
    resetEditorBlocksWithoutUndoLevel resetEditorBlocks provideToNative_Html writePostSnapshot
  by_cases hm : w.store.mode = "text" <;> simp only [hm, if_true, if_false] <;>
    split <;> simp

/-- After the handler the snapshot holds the pushed title and html. -/
theorem serializeToNativeAction_post (env : Env) (w : World) :
    (serializeToNativeAction env w).post.titleRaw = (storeAtSerialize env w.store).title ∧
    (serializeToNativeAction env w).post.contentRaw =
      env.serialize (storeAtSerialize env w.store).blocks := by
  unfold serializeToNativeAction storeAtSerialize updateHtmlAction
    resetEditorBlocksWithoutUndoLevel resetEditorBlocks provideToNative_Html writePostSnapshot
  by_cases hm : w.store.mode = "text" <;> simp only [hm, if_true, if_false] <;>
    split <;> simp_all


/-- Pushes of a trace extended by more calls. -/
theorem pushes_append (t u : List Effect) : pushes (t ++ u) = pushes t ++ pushes u := by
  simp [pushes]

/-- The handler adds exactly one push to the pushes of the trace. -/
theorem serializeToNativeAction_pushes (env : Env) (w : World) :
    pushes (serializeToNativeAction env w).trace =
      pushes w.trace ++
        [Effect.provideToNative_Html
          (env.serialize (storeAtSerialize env w.store).blocks)
          (storeAtSerialize env w.store).title
          ((storeAtSerialize env w.store).title != w.post.titleRaw ||
            env.serialize (storeAtSerialize env w.store).blocks != w.post.contentRaw)] := by
  rw [serializeToNativeAction_trace]
  by_cases hm : w.store.mode = "text" <;> simp [pushes, hm]

/-- The handler leaves `this.post` alone when the flag is false. -/
theorem serializeToNativeAction_post_unchanged (env : Env) (w : World)
    (htitle : (storeAtSerialize env w.store).title = w.post.titleRaw)
    (hcontent : env.serialize (storeAtSerialize env w.store).blocks = w.post.contentRaw) :
    (serializeToNativeAction env w).post = w.post := by
  unfold storeAtSerialize at htitle hcontent
  unfold serializeToNativeAction updateHtmlAction
    resetEditorBlocksWithoutUndoLevel resetEditorBlocks provideToNative_Html writePostSnapshot
  by_cases hm : w.store.mode = "text" <;> simp only [hm, if_true, if_false] at htitle hcontent ⊢ <;>
    simp [htitle, hcontent]

/-! ## Claims on the request-HTML handler -/

/-- C1, as stated, fails: in the example world the title equals the snapshot's
title and the serialized blocks equal the snapshot's content, yet the handler
calls `provideToNative_Html` (once, with the flag false). -/
theorem serializeToNativeAction_unchanged_still_pushes :
    demoWorld.store.title = demoWorld.post.titleRaw ∧
    demoEnv.serialize demoWorld.store.blocks = demoWorld.post.contentRaw ∧
    (serializeToNativeAction demoEnv demoWorld).trace =
      [Effect.provideToNative_Html "" "T" false] ∧
    pushes (serializeToNativeAction demoEnv demoWorld).trace ≠ pushes demoWorld.trace := by
  decide

/-- C1, amended: when the title and the serialized blocks the handler reads
equal the snapshot's title and content, `serializeToNativeAction` calls
`provideToNative_Html` exactly once, with the snapshot's content and title and
with `hasChanges` false, and leaves the snapshot as it was. -/
theorem serializeToNativeAction_unchanged_pushes_false (env : Env) (w : World)
    (htitle : (storeAtSerialize env w.store).title = w.post.titleRaw)
    (hcontent : env.serialize (storeAtSerialize env w.store).blocks = w.post.contentRaw) :
    pushes (serializeToNativeAction env w).trace =
      pushes w.trace ++ [Effect.provideToNative_Html w.post.contentRaw w.post.titleRaw false] ∧
    (serializeToNativeAction env w).post = w.post := by
  refine ⟨?_, serializeToNativeAction_post_unchanged env w htitle hcontent⟩
  rw [serializeToNativeAction_pushes, htitle, hcontent]
  simp

/-- Witness of C1 amended at the example world. -/
theorem serializeToNativeAction_unchanged_pushes_false_witness :
    pushes (serializeToNativeAction demoEnv demoWorld).trace =
      pushes demoWorld.trace ++
        [Effect.provideToNative_Html demoWorld.post.contentRaw demoWorld.post.titleRaw false] ∧
    (serializeToNativeAction demoEnv demoWorld).post = demoWorld.post :=
  serializeToNativeAction_unchanged_pushes_false demoEnv demoWorld (by decide) (by decide)

/-- C8: the flag `hasChanges` that `serializeToNativeAction` pushes is true
exactly when the title read differs from the snapshot's title or the serialized
blocks differ from the snapshot's content; after the handler the snapshot's
title and content are the pushed title and html; and a second invocation that
reads the same title and the same serialized blocks pushes `hasChanges` false. -/
theorem serializeToNativeAction_hasChanges (env : Env) (w : World) :
    ∃ hasChanges : Bool,
      (hasChanges = true ↔
        ((storeAtSerialize env w.store).title ≠ w.post.titleRaw ∨
          env.serialize (storeAtSerialize env w.store).blocks ≠ w.post.contentRaw)) ∧
      pushes (serializeToNativeAction env w).trace =
        pushes w.trace ++
          [Effect.provideToNative_Html (env.serialize (storeAtSerialize env w.store).blocks)
            (storeAtSerialize env w.store).title hasChanges] ∧
      (serializeToNativeAction env w).post.titleRaw = (storeAtSerialize env w.store).title ∧
      (serializeToNativeAction env w).post.contentRaw =
        env.serialize (storeAtSerialize env w.store).blocks ∧
      ((storeAtSerialize env (serializeToNativeAction env w).store).title =
          (storeAtSerialize env w.store).title →
        env.serialize (storeAtSerialize env (serializeToNativeAction env w).store).blocks =
          env.serialize (storeAtSerialize env w.store).blocks →
        pushes (serializeToNativeAction env (serializeToNativeAction env w)).trace =
          pushes (serializeToNativeAction env w).trace ++
            [Effect.provideToNative_Html (env.serialize (storeAtSerialize env w.store).blocks)
              (storeAtSerialize env w.store).title false]) := by
  refine ⟨_, hasChanges_eq_true_iff env _ w.post, serializeToNativeAction_pushes env w,
    (serializeToNativeAction_post env w).1, (serializeToNativeAction_post env w).2, ?_⟩
  intro h1 h2
  rw [serializeToNativeAction_pushes env (serializeToNativeAction env w), h1, h2,
    (serializeToNativeAction_post env w).1, (serializeToNativeAction_post env w).2]
  simp

/-- Witness of C8 at the example text-mode world: the first invocation pushes
the flag true, the second one false. -/
theorem serializeToNativeAction_hasChanges_witness :
    ∃ hasChanges : Bool,
      (hasChanges = true ↔
        ((storeAtSerialize demoEnv demoTextWorld.store).title ≠ demoTextWorld.post.titleRaw ∨
          demoEnv.serialize (storeAtSerialize demoEnv demoTextWorld.store).blocks ≠
            demoTextWorld.post.contentRaw)) ∧
      pushes (serializeToNativeAction demoEnv demoTextWorld).trace =
        pushes demoTextWorld.trace ++ [Effect.provideToNative_Html "p" "T" hasChanges] ∧
      pushes (serializeToNativeAction demoEnv
          (serializeToNativeAction demoEnv demoTextWorld)).trace =
        pushes (serializeToNativeAction demoEnv demoTextWorld).trace ++
          [Effect.provideToNative_Html "p" "T" false] := by
  obtain ⟨hc, h1, h2, _, _, h5⟩ := serializeToNativeAction_hasChanges demoEnv demoTextWorld
  exact ⟨hc, h1, h2, h5 (by decide) (by decide)⟩

/-- C10: in text mode `serializeToNativeAction` first dispatches
`resetEditorBlocks` with `parse(getEditedPostContent())` and undo-level creation
off, and the html it then pushes is serialized from the props after that
dispatch; in any other mode its only call is the push and the store values are
left as they were. -/
theorem serializeToNativeAction_reset_only_in_text_mode (env : Env) (w : World) :
    (w.store.mode = "text" →
      ∃ hasChanges : Bool,
        (serializeToNativeAction env w).trace =
          w.trace ++
            [Effect.resetEditorBlocks (env.parse w.store.editedPostContent) false,
             Effect.provideToNative_Html
              (env.serialize
                (env.onResetEditorBlocks (env.parse w.store.editedPostContent) false w.store).blocks)
              (env.onResetEditorBlocks (env.parse w.store.editedPostContent) false w.store).title
              hasChanges]) ∧
    (w.store.mode ≠ "text" →
      (∃ hasChanges : Bool,
        (serializeToNativeAction env w).trace =
          w.trace ++
            [Effect.provideToNative_Html (env.serialize w.store.blocks) w.store.title hasChanges]) ∧
      (serializeToNativeAction env w).store = w.store) := by
  constructor
  · intro hm
    rw [serializeToNativeAction_trace]
    simp [storeAtSerialize, hm]
  · intro hm
    constructor
    · rw [serializeToNativeAction_trace]
      simp [storeAtSerialize, hm]
    · rw [serializeToNativeAction_store]
      simp [storeAtSerialize, hm]

/-- Witness of C10: the text-mode example resets before it pushes, the
visual-mode example only pushes and keeps its store. -/
theorem serializeToNativeAction_reset_only_in_text_mode_witness :
    (∃ hasChanges : Bool,
      (serializeToNativeAction demoEnv demoTextWorld).trace =
        demoTextWorld.trace ++
          [Effect.resetEditorBlocks (demoEnv.parse demoTextWorld.store.editedPostContent) false,
           Effect.provideToNative_Html
            (demoEnv.serialize
              (demoEnv.onResetEditorBlocks (demoEnv.parse demoTextWorld.store.editedPostContent)
                false demoTextWorld.store).blocks)
            (demoEnv.onResetEditorBlocks (demoEnv.parse demoTextWorld.store.editedPostContent)
              false demoTextWorld.store).title
            hasChanges]) ∧
    ((∃ hasChanges : Bool,
      (serializeToNativeAction demoEnv demoWorld).trace =
        demoWorld.trace ++
          [Effect.provideToNative_Html (demoEnv.serialize demoWorld.store.blocks)
            demoWorld.store.title hasChanges]) ∧
      (serializeToNativeAction demoEnv demoWorld).store = demoWorld.store) :=
  ⟨(serializeToNativeAction_reset_only_in_text_mode demoEnv demoTextWorld).1 (by decide),
   (serializeToNativeAction_reset_only_in_text_mode demoEnv demoWorld).2 (by decide)⟩

/-- C7: for every string `html`, `updateHtmlAction` makes exactly one call,
`resetEditorBlocks(parse(html), { __unstableShouldCreateUndoLevel: false })`:
nothing is checked before the parse and nothing is pushed to the host. -/
theorem updateHtmlAction_effects (env : Env) (html : String) (w : World) :
    (updateHtmlAction env html w).trace =
      w.trace ++ [Effect.resetEditorBlocks (env.parse html) false] ∧
    pushes (updateHtmlAction env html w).trace = pushes w.trace := by
  simp [updateHtmlAction, resetEditorBlocksWithoutUndoLevel, resetEditorBlocks, pushes]


/-! ## Claims on the toggle-mode handler -/

/-- Calls of `toggleMode`: those of `serializeToNativeAction`, then
`clearSelectedBlock`, then `switchEditorMode`. -/
theorem toggleMode_trace (env : Env) (w : World) :
    (toggleMode env w).trace =
      (serializeToNativeAction env w).trace ++
        [Effect.clearSelectedBlock,
         Effect.switchEditorMode (if w.store.mode = "visual" then "text" else "visual")] := by
  simp [toggleMode, switchMode, switchEditorMode, clearSelectedBlock]

/-- Store values after `toggleMode`. -/
theorem toggleMode_store (env : Env) (w : World) :
    (toggleMode env w).store =
      env.onSwitchEditorMode (if w.store.mode = "visual" then "text" else "visual")
        (env.onClearSelectedBlock (storeAtSerialize env w.store)) := by
  simp [toggleMode, switchMode, switchEditorMode, clearSelectedBlock,
    serializeToNativeAction_store]

/-- The pushes of `toggleMode` are those of its `serializeToNativeAction`. -/
theorem toggleMode_pushes (env : Env) (w : World) :
    pushes (toggleMode env w).trace = pushes (serializeToNativeAction env w).trace := by
  rw [toggleMode_trace, pushes_append]
  simp [pushes]

/-- C9: `toggleMode` makes its calls in this order: the calls of the
serialize-to-host step (in text mode the reset of the blocks, then the one
push), then `clearSelectedBlock`, then one `switchEditorMode`, whose argument
is text when the mode read at the start of the handler is visual and visual
for every other mode value. -/
theorem toggleMode_effects_in_order (env : Env) (w : World) :
    ∃ hasChanges : Bool,
      (toggleMode env w).trace =
        w.trace ++
          (if w.store.mode = "text"
            then [Effect.resetEditorBlocks (env.parse w.store.editedPostContent) false] else []) ++
          [Effect.provideToNative_Html (env.serialize (storeAtSerialize env w.store).blocks)
            (storeAtSerialize env w.store).title hasChanges,
           Effect.clearSelectedBlock,
           Effect.switchEditorMode (if w.store.mode = "visual" then "text" else "visual")] := by
  rw [toggleMode_trace, serializeToNativeAction_trace]
  simp

/-- C2: when the store's mode becomes the argument of each `switchEditorMode`
and the starting mode is visual or text, two runs of `toggleMode` in sequence
leave the mode at its starting value, and each run adds exactly one push,
carrying the serialized blocks and the title read in that run. -/
theorem toggleMode_twice (env : Env) (w : World)
    (hswitch : ∀ (m : String) (s : Store), (env.onSwitchEditorMode m s).mode = m)
    (hmode : w.store.mode = "visual" ∨ w.store.mode = "text") :
    (toggleMode env (toggleMode env w)).store.mode = w.store.mode ∧
    ∃ c1 c2 : Bool,
      pushes (toggleMode env w).trace =
        pushes w.trace ++
          [Effect.provideToNative_Html (env.serialize (storeAtSerialize env w.store).blocks)
            (storeAtSerialize env w.store).title c1] ∧
      pushes (toggleMode env (toggleMode env w)).trace =
        pushes w.trace ++
          [Effect.provideToNative_Html (env.serialize (storeAtSerialize env w.store).blocks)
            (storeAtSerialize env w.store).title c1,
           Effect.provideToNative_Html
            (env.serialize (storeAtSerialize env (toggleMode env w).store).blocks)
            (storeAtSerialize env (toggleMode env w).store).title c2] := by
  constructor
  · rw [toggleMode_store env (toggleMode env w), hswitch, toggleMode_store env w, hswitch]
    rcases hmode with h | h <;> simp [h]
  · refine ⟨((storeAtSerialize env w.store).title != w.post.titleRaw ||
        env.serialize (storeAtSerialize env w.store).blocks != w.post.contentRaw),
      ((storeAtSerialize env (toggleMode env w).store).title != (toggleMode env w).post.titleRaw ||
        env.serialize (storeAtSerialize env (toggleMode env w).store).blocks !=
          (toggleMode env w).post.contentRaw), ?_, ?_⟩
    · rw [toggleMode_pushes, serializeToNativeAction_pushes]
    · rw [toggleMode_pushes, serializeToNativeAction_pushes, toggleMode_pushes,
        serializeToNativeAction_pushes]
      simp

/-- Witness of C2 at the example world, which starts in visual mode. -/
theorem toggleMode_twice_witness :
    (toggleMode demoEnv (toggleMode demoEnv demoWorld)).store.mode = demoWorld.store.mode ∧
    ∃ c1 c2 : Bool,
      pushes (toggleMode demoEnv demoWorld).trace =
        pushes demoWorld.trace ++
          [Effect.provideToNative_Html
            (demoEnv.serialize (storeAtSerialize demoEnv demoWorld.store).blocks)
            (storeAtSerialize demoEnv demoWorld.store).title c1] ∧
      pushes (toggleMode demoEnv (toggleMode demoEnv demoWorld)).trace =
        pushes demoWorld.trace ++
          [Effect.provideToNative_Html
            (demoEnv.serialize (storeAtSerialize demoEnv demoWorld.store).blocks)
            (storeAtSerialize demoEnv demoWorld.store).title c1,
           Effect.provideToNative_Html
            (demoEnv.serialize
              (storeAtSerialize demoEnv (toggleMode demoEnv demoWorld).store).blocks)
            (storeAtSerialize demoEnv (toggleMode demoEnv demoWorld).store).title c2] :=
  toggleMode_twice demoEnv demoWorld (fun _ _ => rfl) (Or.inl rfl)

/-! ## Claim on the ready transition -/

/-- C4: `componentDidUpdate` calls `editorDidMount` exactly once when
`prevProps.isReady` is false and `props.isReady` is true, with the list, in
block order, of `attributes.originalName` of the blocks whose name is
`getUnregisteredTypeHandlerName()`; otherwise it does not call it. -/
theorem componentDidUpdate_editorDidMount (env : Env) (prevIsReady : Bool) (prevPost : Post)
    (w : World) :
    editorDidMountCalls (componentDidUpdate env prevIsReady prevPost w).trace =
      editorDidMountCalls w.trace ++
        (if prevIsReady = false ∧ w.store.isReady = true then
          [(w.store.blocks.filter
              fun b => decide (some b.name = env.getUnregisteredTypeHandlerName)).map
            fun b => b.attributes.originalName]
        else []) := by
  unfold componentDidUpdate refreshPost receiveEntityRecords addEntities editorDidMount
  cases prevIsReady <;> cases hr : w.store.isReady <;>
    by_cases hp : prevPost.ref = w.propsPost.ref <;>
    simp [hr, hp, editorDidMountCalls, List.filterMap_append]


/-- Example of section 8 of the specification: on the transition to ready with
one unsupported block whose original name is core/unknown, the host is told
that one name, once; a later update with readiness already true tells nothing. -/
theorem componentDidUpdate_ready_example :
    (componentDidUpdate demoEnv false demoPost demoReadyWorld).trace =
      [Effect.editorDidMount [some "core/unknown"]] ∧
    (componentDidUpdate demoEnv true demoPost
        (componentDidUpdate demoEnv false demoPost demoReadyWorld)).trace =
      [Effect.editorDidMount [some "core/unknown"]] := by
  decide

/-! ## Claim on the subscription lifecycle -/

/-- Removed handles of a trace extended by more calls. -/
theorem removed_append (t u : List Effect) : removed (t ++ u) = removed t ++ removed u := by
  simp [removed, List.filterMap_append]

/-- The request-HTML handler touches neither the subscription fields nor the
host channel, and releases nothing. -/
theorem serializeToNativeAction_frame (env : Env) (w : World) :
    (serializeToNativeAction env w).subscriptionParentGetHtml = w.subscriptionParentGetHtml ∧
    (serializeToNativeAction env w).subscriptionParentToggleHTMLMode =
      w.subscriptionParentToggleHTMLMode ∧
    (serializeToNativeAction env w).subscriptionParentSetTitle = w.subscriptionParentSetTitle ∧
    (serializeToNativeAction env w).subscriptionParentUpdateHtml =
      w.subscriptionParentUpdateHtml ∧
    (serializeToNativeAction env w).subscriptionParentSetFocusOnTitle =
      w.subscriptionParentSetFocusOnTitle ∧
    (serializeToNativeAction env w).active = w.active ∧
    removed (serializeToNativeAction env w).trace = removed w.trace := by
  refine ⟨?_, ?_, ?_, ?_, ?_, ?_, ?_⟩
  case refine_7 =>
    rw [serializeToNativeAction_trace]
    by_cases hm : w.store.mode = "text" <;> simp [removed, hm]
  all_goals
    unfold serializeToNativeAction updateHtmlAction
      resetEditorBlocksWithoutUndoLevel resetEditorBlocks provideToNative_Html writePostSnapshot
    by_cases hm : w.store.mode = "text" <;> simp only [hm, if_true, if_false] <;>
      split <;> rfl

/-- No handler touches the subscription fields or the host channel, and none
releases a subscription. -/
theorem fire_frame (env : Env) (f : Firing) (w : World) :
    (fire env f w).subscriptionParentGetHtml = w.subscriptionParentGetHtml ∧
    (fire env f w).subscriptionParentToggleHTMLMode = w.subscriptionParentToggleHTMLMode ∧
    (fire env f w).subscriptionParentSetTitle = w.subscriptionParentSetTitle ∧
    (fire env f w).subscriptionParentUpdateHtml = w.subscriptionParentUpdateHtml ∧
    (fire env f w).subscriptionParentSetFocusOnTitle = w.subscriptionParentSetFocusOnTitle ∧
    (fire env f w).active = w.active ∧
    removed (fire env f w).trace = removed w.trace := by
  obtain ⟨h1, h2, h3, h4, h5, h6, h7⟩ := serializeToNativeAction_frame env w
  cases f with
  | parentGetHtml => exact ⟨h1, h2, h3, h4, h5, h6, h7⟩
  | parentToggleHTMLMode =>
    refine ⟨h1, h2, h3, h4, h5, h6, ?_⟩
    show removed (toggleMode env w).trace = removed w.trace
    rw [toggleMode_trace, removed_append, h7]
    simp [removed]
  | setTitle title => simp [fire, editTitle, editPost, removed, List.filterMap_append]
  | updateHtml html =>
    simp [fire, updateHtmlAction, resetEditorBlocksWithoutUndoLevel, resetEditorBlocks, removed,
      List.filterMap_append]
  | setFocusOnTitle =>
    cases hr : w.postTitleRef <;> simp [fire, hr, focus, removed, List.filterMap_append]

/-- No finite sequence of handler firings touches the subscription fields or
the host channel, and none releases a subscription. -/
theorem fireAll_frame (env : Env) (fs : List Firing) (w : World) :
    (fireAll env fs w).subscriptionParentGetHtml = w.subscriptionParentGetHtml ∧
    (fireAll env fs w).subscriptionParentToggleHTMLMode = w.subscriptionParentToggleHTMLMode ∧
    (fireAll env fs w).subscriptionParentSetTitle = w.subscriptionParentSetTitle ∧
    (fireAll env fs w).subscriptionParentUpdateHtml = w.subscriptionParentUpdateHtml ∧
    (fireAll env fs w).subscriptionParentSetFocusOnTitle = w.subscriptionParentSetFocusOnTitle ∧
    (fireAll env fs w).active = w.active ∧
    removed (fireAll env fs w).trace = removed w.trace := by
  induction fs generalizing w with
  | nil => simp [fireAll]
  | cons f fs ih =>
    have hstep : fireAll env (f :: fs) w = fireAll env fs (fire env f w) := rfl
    obtain ⟨a1, a2, a3, a4, a5, a6, a7⟩ := ih (fire env f w)
    obtain ⟨b1, b2, b3, b4, b5, b6, b7⟩ := fire_frame env f w
    rw [hstep]
    exact ⟨a1.trans b1, a2.trans b2, a3.trans b3, a4.trans b4, a5.trans b5, a6.trans b6,
      a7.trans b7⟩

/-- What `componentDidMount` leaves: five fresh handles in the five fields,
live on the channel after the subscriptions already there, nothing released. -/
theorem componentDidMount_result (w : World) :
    (componentDidMount w).subscriptionParentGetHtml = some w.nextHandle ∧
    (componentDidMount w).subscriptionParentToggleHTMLMode = some (w.nextHandle + 1) ∧
    (componentDidMount w).subscriptionParentSetTitle = some (w.nextHandle + 2) ∧
    (componentDidMount w).subscriptionParentUpdateHtml = some (w.nextHandle + 3) ∧
    (componentDidMount w).subscriptionParentSetFocusOnTitle = some (w.nextHandle + 4) ∧
    (componentDidMount w).active =
      w.active ++
        [(w.nextHandle, HostEvent.parentGetHtml),
         (w.nextHandle + 1, HostEvent.parentToggleHTMLMode),
         (w.nextHandle + 2, HostEvent.setTitle),
         (w.nextHandle + 3, HostEvent.updateHtml),
         (w.nextHandle + 4, HostEvent.setFocusOnTitle)] ∧
    removed (componentDidMount w).trace = removed w.trace := by
  simp [componentDidMount, subscribe, removed, List.filterMap_append]

/-- With all five fields holding a handle, `componentWillUnmount` returns
normally after releasing the five handles in source order. -/
theorem componentWillUnmount_of_held (w : World) (h1 h2 h3 h4 h5 : Nat)
    (e1 : w.subscriptionParentGetHtml = some h1)
    (e2 : w.subscriptionParentToggleHTMLMode = some h2)
    (e3 : w.subscriptionParentSetTitle = some h3)
    (e4 : w.subscriptionParentUpdateHtml = some h4)
    (e5 : w.subscriptionParentSetFocusOnTitle = some h5) :
    componentWillUnmount w =
      Except.ok (remove h5 (remove h4 (remove h3 (remove h2 (remove h1 w))))) := by
  simp [componentWillUnmount, callRemove, remove, e1, e2, e3, e4, e5, bind, Except.bind, pure,
    Except.pure]

/-- With none of the five fields holding a handle, `componentWillUnmount`
returns normally and does nothing. -/
theorem componentWillUnmount_of_unheld (w : World)
    (e1 : w.subscriptionParentGetHtml = none)
    (e2 : w.subscriptionParentToggleHTMLMode = none)
    (e3 : w.subscriptionParentSetTitle = none)
    (e4 : w.subscriptionParentUpdateHtml = none)
    (e5 : w.subscriptionParentSetFocusOnTitle = none) :
    componentWillUnmount w = Except.ok w := by
  simp [componentWillUnmount, e1, e2, e3, e4, e5, bind, Except.bind, pure, Except.pure]


/-- C3: from a world with no live subscription, `componentDidMount`, then any
finite sequence of handler firings, then `componentWillUnmount` returns
normally with no live subscription left, and `remove()` has been called
exactly once on each of the five handles acquired on mount (get-HTML,
toggle-mode, set-title, update-HTML, focus-title) and on nothing else; and
`componentWillUnmount` on a component whose five fields hold nothing returns
normally without any call. -/
theorem mount_fire_unmount_releases_all :
    (∀ (env : Env) (fs : List Firing) (w : World), w.active = [] →
      (componentDidMount w).active =
        [(w.nextHandle, HostEvent.parentGetHtml),
         (w.nextHandle + 1, HostEvent.parentToggleHTMLMode),
         (w.nextHandle + 2, HostEvent.setTitle),
         (w.nextHandle + 3, HostEvent.updateHtml),
         (w.nextHandle + 4, HostEvent.setFocusOnTitle)] ∧
      ∃ w2 : World,
        componentWillUnmount (fireAll env fs (componentDidMount w)) = Except.ok w2 ∧
        w2.active = [] ∧
        removed w2.trace =
          removed w.trace ++
            [w.nextHandle, w.nextHandle + 1, w.nextHandle + 2, w.nextHandle + 3,
             w.nextHandle + 4]) ∧
    (∀ w : World,
      w.subscriptionParentGetHtml = none →
      w.subscriptionParentToggleHTMLMode = none →
      w.subscriptionParentSetTitle = none →
      w.subscriptionParentUpdateHtml = none →
      w.subscriptionParentSetFocusOnTitle = none →
      componentWillUnmount w = Except.ok w) := by
  refine ⟨?_, componentWillUnmount_of_unheld⟩
  intro env fs w hactive
  obtain ⟨m1, m2, m3, m4, m5, m6, m7⟩ := componentDidMount_result w
  obtain ⟨f1, f2, f3, f4, f5, f6, f7⟩ := fireAll_frame env fs (componentDidMount w)
  rw [hactive, List.nil_append] at m6
  refine ⟨m6, _, componentWillUnmount_of_held _ _ _ _ _ _
    (f1.trans m1) (f2.trans m2) (f3.trans m3) (f4.trans m4) (f5.trans m5), ?_, ?_⟩
  · simp [remove, f6, m6]
  · simp only [remove, removed_append, f7, m7]
    simp [removed]

/-- Witness of C3: the example world is mounted, receives a toggle, a title
and a focus request, and is unmounted; and the unmounted example world is
unmounted without a mount. -/
theorem mount_fire_unmount_releases_all_witness :
    (∃ w2 : World,
      componentWillUnmount
          (fireAll demoEnv
            [Firing.parentToggleHTMLMode, Firing.setTitle "U", Firing.setFocusOnTitle]
            (componentDidMount demoWorld)) = Except.ok w2 ∧
      w2.active = [] ∧
      removed w2.trace = removed demoWorld.trace ++ [0, 1, 2, 3, 4]) ∧
    componentWillUnmount demoWorld = Except.ok demoWorld :=
  ⟨(mount_fire_unmount_releases_all.1 demoEnv
      [Firing.parentToggleHTMLMode, Firing.setTitle "U", Firing.setFocusOnTitle]
      demoWorld rfl).2,
   mount_fire_unmount_releases_all.2 demoWorld rfl rfl rfl rfl rfl⟩

/-! ## Claims on the reducer -/

/-- C5: the slice `isSelected` of `postTitle` is a boolean that is `false` by
default when the previous state is `undefined`; on an action of type
`TOGGLE_POST_TITLE_SELECTION` the slice, and with it the state `postTitle`
returns from any previous state, becomes `action.isSelected`; on an action of
any other type the slice keeps its previous value, so that `postTitle` returns
a state equal to its input. -/
theorem postTitle_isSelected (action : Action) :
    (action.type = "TOGGLE_POST_TITLE_SELECTION" →
      (∀ state : Option Bool, isSelected state action = action.isSelected) ∧
      (∀ state : Option PostTitleState,
        (postTitle state action).isSelected = action.isSelected) ∧
      ∀ state : Option PostTitleState,
        postTitle state action = { isSelected := action.isSelected }) ∧
    (action.type ≠ "TOGGLE_POST_TITLE_SELECTION" →
      isSelected none action = false ∧
      (∀ previous : Bool, isSelected (some previous) action = previous) ∧
      (postTitle none action).isSelected = false ∧
      ∀ state : PostTitleState, postTitle (some state) action = state) := by
  constructor
  · intro h
    refine ⟨?_, ?_, ?_⟩ <;> intro state <;>
      simp [isSelected, postTitle, combineReducersPostTitle, h]
  · intro h
    simp [isSelected, postTitle, combineReducersPostTitle, h]

/-- Witness of C5: the toggle action selects the title from either previous
value, through the slice and through `postTitle` (from the unselected state
and from `undefined` alike); the other action leaves the title state as it
was. -/
theorem postTitle_isSelected_witness :
    ((∀ state : Option Bool, isSelected state demoToggleAction = true) ∧
      postTitle (some { isSelected := false }) demoToggleAction = { isSelected := true } ∧
      postTitle none demoToggleAction = { isSelected := true }) ∧
    (isSelected none demoOtherAction = false ∧
      (∀ previous : Bool, isSelected (some previous) demoOtherAction = previous) ∧
      (postTitle none demoOtherAction).isSelected = false ∧
      ∀ state : PostTitleState, postTitle (some state) demoOtherAction = state) :=
  ⟨⟨((postTitle_isSelected demoToggleAction).1 (by decide)).1,
     ((postTitle_isSelected demoToggleAction).1 (by decide)).2.2 (some { isSelected := false }),
     ((postTitle_isSelected demoToggleAction).1 (by decide)).2.2 none⟩,
   (postTitle_isSelected demoOtherAction).2 (by decide)⟩

/-- Filtering out an id that no pending transaction carries keeps them all. -/
theorem filter_pending_fresh (pending : List Transaction) (id : Nat)
    (hfresh : ∀ t ∈ pending, t.id ≠ id) :
    pending.filter (fun t => t.id != id) = pending := by
  rw [List.filter_eq_self]
  intro t ht
  simpa using hfresh t ht

/-- C6: for every state of the default reducer, every action dispatched as a
`BEGIN` transaction with an id that no pending transaction carries, followed by
any action dispatched as the `REVERT` of that id, yields the state before the
begin, and so the same state tree. -/
theorem reducer_begin_revert {ρ : Type} (imported : Option ρ → Action → ρ)
    (st : OptimistState (EditorState ρ)) (action revertAction : Action) (id : Nat)
    (hfresh : ∀ t ∈ st.pending, t.id ≠ id) :
    reducer imported
        (reducer imported st
          { action with optimist := some { type := OptimistType.BEGIN, id := id } })
        { revertAction with optimist := some { type := OptimistType.REVERT, id := id } } = st ∧
    OptimistState.current (combinedReducer imported)
        (reducer imported
          (reducer imported st
            { action with optimist := some { type := OptimistType.BEGIN, id := id } })
          { revertAction with optimist := some { type := OptimistType.REVERT, id := id } }) =
      OptimistState.current (combinedReducer imported) st := by
  have h : reducer imported
        (reducer imported st
          { action with optimist := some { type := OptimistType.BEGIN, id := id } })
        { revertAction with optimist := some { type := OptimistType.REVERT, id := id } } = st := by
    simp [reducer, optimist, List.filter_append, filter_pending_fresh st.pending id hfresh]
  rw [h]
  exact ⟨rfl, rfl⟩

/-- Witness of C6: on the example state the toggle action begun as
transaction 7 shows the title selected, and its revert restores the state. -/
theorem reducer_begin_revert_witness :
    (OptimistState.current (combinedReducer fun _ _ => ())
        (reducer (fun _ _ => ()) demoReducerState
          { demoToggleAction with
            optimist := some { type := OptimistType.BEGIN, id := 7 } })).postTitle.isSelected
      = true ∧
    reducer (fun _ _ => ())
        (reducer (fun _ _ => ()) demoReducerState
          { demoToggleAction with optimist := some { type := OptimistType.BEGIN, id := 7 } })
        { demoOtherAction with optimist := some { type := OptimistType.REVERT, id := 7 } }
      = demoReducerState :=
  ⟨by decide,
   (reducer_begin_revert (fun _ _ => ()) demoReducerState demoToggleAction demoOtherAction 7
      (by simp [demoReducerState])).1⟩


end Gutenberg
